import Mathlib

/-!
Verification of the jnet UDP codec (`src/udp.rs`) and the 6LoWPAN
Neighbor-Discovery / Echo frame-processing state machine
(`firmware/examples/sixlowpan.rs`).

Buffers are shallowly embedded as `List Nat`, each element one byte
(values `< 256` where a claim needs it).  16-bit header fields are read
and written in network byte order exactly as `byteorder::NetworkEndian`
does.  Machine integers are modelled as `Nat` with explicit `% 2^w`
where Rust wrapping matters (the `u32` checksum accumulator), and the
`u16`-saturating / panicking casts of the source are modelled explicitly.
-/

namespace Jnet

/-! ## Byte-level primitives shared by the UDP codec -/

/-- `NetworkEndian::read_u16` at offset `i` of a byte buffer: big-endian,
out-of-range bytes read as 0 (in the source the bounds are guaranteed by
construction; theorems carry the corresponding hypotheses). -/
def readU16 (b : List Nat) (i : Nat) : Nat :=
  b.getD i 0 * 256 + b.getD (i + 1) 0

/-- `NetworkEndian::write_u16` at offset `i`: stores the high byte of the
16-bit value `v` at `i` and the low byte at `i + 1`. -/
def writeU16 (b : List Nat) (i v : Nat) : List Nat :=
  (b.set i (v / 256 % 256)).set (i + 1) (v % 256)

/-! ## UDP packet view (`udp::Packet`), transcribed from `src/udp.rs`

A packet is its backing buffer; the header layout is
source(0..2) | destination(2..4) | length(4..6) | checksum(6..8). -/

/-- `Packet::get_length`: the Length field of the header (offset 4). -/
def get_length (b : List Nat) : Nat := readU16 b 4

/-- `Packet::get_checksum`: the Checksum field of the header (offset 6). -/
def get_checksum (b : List Nat) : Nat := readU16 b 6

/-- `Packet::payload_len` (private): `get_length - HEADER_SIZE`.
The source computes this in `u16`; with the packet invariant
`8 ≤ get_length` the subtraction never underflows. -/
def payload_len (b : List Nat) : Nat := get_length b - 8

/-- The invariant every `udp::Packet` obtained from `parse` or `new`
satisfies: the Length field is at least the 8-byte header, fits in a
`u16` (it is read from two bytes), and does not exceed the buffer. -/
abbrev PacketInv (b : List Nat) : Prop :=
  8 ≤ get_length b ∧ get_length b ≤ 65535 ∧ get_length b ≤ b.length

/-- `Packet::parse`: fails (handing back the untouched buffer) if the
buffer is shorter than the header, or the declared Length field is below
the header size or exceeds the buffer length. -/
def parse (bytes : List Nat) : Except (List Nat) (List Nat) :=
  if bytes.length < 8 then Except.error bytes
  else if get_length bytes < 8 ∨ bytes.length < get_length bytes then Except.error bytes
  else Except.ok bytes

/-- `Packet::new`: fails if the buffer is shorter than the header;
otherwise truncates the buffer to at most `u16::MAX` bytes
(`u16(len).unwrap_or(u16::MAX)` followed by `buffer.truncate(len)`),
zeroes the Checksum field and writes the truncated length into the
Length field. -/
def new (buffer : List Nat) : Option (List Nat) :=
  if buffer.length < 8 then none
  else
    let len := min buffer.length 65535
    some (writeU16 (writeU16 (buffer.take len) 6 0) 4 len)

/-- `Packet::truncate`: truncates the *payload* to `len` bytes.  When
`len < payload_len` the backing buffer shrinks to `len + 8` bytes and the
Length field is rewritten; otherwise nothing happens. -/
def truncate (b : List Nat) (len : Nat) : List Nat :=
  if len < payload_len b then writeU16 (b.take (len + 8)) 4 (len + 8)
  else b

/-- Result of `Packet::set_payload`: `panicked` models a Rust panic
(either the `u16(data.len()).unwrap()` on oversized data, or the
`copy_from_slice` length mismatch), `failed b` models `return None`
with the untouched buffer `b`, `ok b` models `Some(())` with the new
buffer contents `b`. -/
inductive SPResult where
  | panicked : SPResult
  | failed : List Nat → SPResult
  | ok : List Nat → SPResult
deriving DecidableEq

/-- `Packet::set_payload`: converts `data.len()` to `u16` (panicking at
`2^16` or more), fails if the current payload length is smaller than the
data, otherwise truncates the payload to the data length and copies the
data into `buffer[8..]` (`copy_from_slice` panics unless the payload
region length equals `data.len()`). -/
def set_payload (b : List Nat) (data : List Nat) : SPResult :=
  if 65536 ≤ data.length then SPResult.panicked
  else
    if payload_len b < data.length then SPResult.failed b
    else
      if (truncate b data.length).length - 8 = data.length then
        SPResult.ok ((truncate b data.length).take 8 ++ data)
      else SPResult.panicked

/-! ## The IPv6 pseudo-header checksum of `Packet::compute_checksum` -/

/-- Sum of the big-endian 16-bit words of a byte list
(`chunks_exact(2)`, used for the two 16-byte addresses of the
pseudo-header; a trailing odd byte is ignored as `chunks_exact` does). -/
def sumPairs : List Nat → Nat
  | a :: b :: rest => a * 256 + b + sumPairs rest
  | _ => 0

/-- Sum of the 16-bit chunks (`chunks(2)`) of the UDP segment starting
at chunk index `i`, skipping chunk 3 (the Checksum field) and folding a
final odd byte into the high octet of a 16-bit word. -/
def chunkSum : Nat → List Nat → Nat
  | _, [] => 0
  | i, [a] => if i = 3 then 0 else a * 256
  | i, a :: b :: rest => (if i = 3 then 0 else a * 256 + b) + chunkSum (i + 1) rest

/-- The end-around-carry folding loop
(`while sum >> 16 != 0 { sum = (sum & 0xffff) + (sum >> 16) }`); on
`Nat`, `>> 16` is `/ 65536` and `& 0xffff` is `% 65536`. -/
def foldCarry (sum : Nat) : Nat :=
  if h : sum / 65536 = 0 then sum
  else foldCarry (sum % 65536 + sum / 65536)
termination_by sum
decreasing_by omega

/-- `Packet::compute_checksum` over the IPv6 pseudo-header
(src address, dest address, segment length as `usize as u32`, next
header 17) and the whole segment with the Checksum field skipped.
The Rust accumulator is a `u32` that wraps at every addition; since
`((a % m) + b) % m = (a + b) % m` this equals one `% 2^32` of the plain
sum, which is how it is written here. -/
def compute_checksum (b src dest : List Nat) : Nat :=
  let len := b.length % 4294967296
  let s := (sumPairs src + sumPairs dest + len / 65536 + len % 65536 + 17
    + chunkSum 0 b) % 4294967296
  65535 - (foldCarry s) % 65536

/-- `Packet::update_ipv6_checksum`: recomputes and stores the checksum. -/
def update_ipv6_checksum (b src dest : List Nat) : List Nat :=
  writeU16 b 6 (compute_checksum b src dest)

/-- `Packet::verify_ipv6_checksum`: compares the freshly computed
checksum with the stored field. -/
def verify_ipv6_checksum (b src dest : List Nat) : Bool :=
  compute_checksum b src dest == get_checksum b


/-! ## 6LoWPAN / Neighbor Discovery state machine (`examples/sixlowpan.rs`)

`on_new_frame` itself is part of the shown source and is transcribed
check for check below.  The codec layers it drives (`jnet::ieee802154`,
`jnet::sixlowpan::iphc`, `jnet::icmpv6`, the `heapless` index map and
the `blue_pill` constants) are not in the shown source; they are
modelled from the spec as noted on each definition. -/

/-- IEEE 802.15.4 link-layer address (`ieee802154::Addr`): 16-bit short
or 64-bit extended form. -/
inductive LLAddr where
  | Short : Nat → LLAddr
  | Extended : Nat → LLAddr
deriving DecidableEq

/-- IPv6 network-layer address (`ipv6::Addr`): 16 bytes. -/
abbrev NLAddr := List Nat

/-- Modelled from the spec: `ipv6::Addr::is_link_local`, a pure
predicate over the address bytes (the `ipv6` module is not part of the
shown source); link-local is the `fe80::/10` prefix. -/
def is_link_local (a : NLAddr) : Bool :=
  a.getD 0 0 == 254 && a.getD 1 0 / 64 == 2

/-- Modelled from the spec: `ipv6::Addr::is_unspecified` — the
all-zeros address. -/
def is_unspecified (a : NLAddr) : Bool :=
  a == List.replicate 16 0

/-- Modelled from the spec: `ipv6::Addr::is_solicited_node` — the
`ff02::1:ffXX:XXXX/104` solicited-node multicast prefix. -/
def is_solicited_node (a : NLAddr) : Bool :=
  a.take 13 == [255, 2, 0, 0, 0, 0, 0, 0, 0, 0, 0, 1, 255]

/-- Modelled from the spec: `blue_pill::EXTENDED_ADDRESS`, the node's
globally unique EUI-64 (a constant of the firmware support crate, not
part of the shown source); the concrete value is arbitrary. -/
def EXTENDED_ADDRESS : Nat := 81985529216486895

/-- Modelled from the spec: `blue_pill::PAN_ID` (constant, value
arbitrary). -/
def PAN_ID : Nat := 48879

/-- Modelled from the spec: the RFC4944 interface identifier derived
from a link-layer address (short form via the `0000:00ff:fe00:XXXX`
pattern, extended form as the EUI-64 with the universal/local bit
flipped). -/
def iidBytes : LLAddr → List Nat
  | LLAddr.Short v => [0, 0, 0, 255, 254, 0, v / 256 % 256, v % 256]
  | LLAddr.Extended v =>
      [((v / 72057594037927936) % 256) ^^^ 2, (v / 281474976710656) % 256,
       (v / 1099511627776) % 256, (v / 4294967296) % 256, (v / 16777216) % 256,
       (v / 65536) % 256, (v / 256) % 256, v % 256]

/-- Modelled from the spec: `iphc::ElidedAddr::complete` — the
well-known link-local prefix `fe80::/64` combined with bits derived
from the given link-layer address per RFC4944. -/
def completeElided (ll : LLAddr) : NLAddr :=
  [254, 128, 0, 0, 0, 0, 0, 0] ++ iidBytes ll

/-- `our_nl_addr()`: `EXTENDED_ADDRESS.into_link_local_address()`,
modelled as the link-local address derived from the extended address. -/
def our_nl_addr : NLAddr := completeElided (LLAddr.Extended EXTENDED_ADDRESS)

/-- A source/destination address of a 6LoWPAN IPHC header
(`iphc::Addr`): carried in full or elided (to be reconstructed from
the link-layer address). -/
inductive IphcAddr where
  | Complete : NLAddr → IphcAddr
  | Elided : IphcAddr
deriving DecidableEq

/-- `iphc::Addr` reconstruction as performed by `on_new_frame`:
`Complete(addr) => addr, Elided(ea) => ea.complete(ll_addr)`. -/
def reconstruct : IphcAddr → LLAddr → NLAddr
  | IphcAddr.Complete a, _ => a
  | IphcAddr.Elided, ll => completeElided ll

/-- MAC frame type (`ieee802154::Type`): only `Data` is accepted. -/
inductive FrameType where
  | Data : FrameType
  | Other : FrameType
deriving DecidableEq

/-- IPv6 next-header indicator (`ipv6::NextHeader`). -/
inductive NextHeader where
  | Ipv6Icmp : NextHeader
  | Other : NextHeader
deriving DecidableEq

/-- ICMPv6 message type (`icmpv6::Type`). -/
inductive IcmpType where
  | NeighborSolicitation : IcmpType
  | NeighborAdvertisement : IcmpType
  | EchoRequest : IcmpType
  | EchoReply : IcmpType
  | Other : IcmpType
deriving DecidableEq

/-- Modelled from the spec: the decoded views of one inbound frame as
delivered by the MAC / IPHC / ICMPv6 codecs, which are not part of the
shown source.  Each field records the result `on_new_frame` observes
from them: parse successes, header fields, downcast results, and the
verdict `icmp.verify_checksum(src_nl_addr, dest_nl_addr)` returns — a
deterministic function of the frame bytes and the reconstructed
addresses, abstracted as one boolean. -/
structure Frame where
  macValid : Bool
  frameType : FrameType
  securityEnabled : Bool
  intraPan : Bool
  srcAddr : Option LLAddr
  destAddr : Option LLAddr
  iphcValid : Bool
  source : IphcAddr
  destination : IphcAddr
  hopLimit : Nat
  nextHeader : Option NextHeader
  icmpValid : Bool
  icmpType : IcmpType
  nsDowncastOk : Bool
  checksumOk : Bool
  sourceLLOpt : Option LLAddr
  nsTarget : NLAddr
  erDowncastOk : Bool
  erIdentifier : Nat
  erSequence : Nat
  erPayload : List Nat
deriving DecidableEq

/-- Modelled from the spec: the fixed-capacity neighbor cache
(`heapless::FnvIndexMap<ipv6::Addr, ieee802154::Addr, CACHE_SIZE>`):
an association list with unique keys and a fixed capacity. -/
structure Cache where
  entries : List (NLAddr × LLAddr)
  cap : Nat
deriving DecidableEq

/-- `cache.get(&k)`. -/
def cacheGet (c : Cache) (k : NLAddr) : Option LLAddr :=
  (c.entries.find? (fun p => p.1 == k)).map (fun p => p.2)

/-- Replace the value stored under an existing key, or `none` when the
key is absent. -/
def insertEntries : List (NLAddr × LLAddr) → NLAddr → LLAddr → Option (List (NLAddr × LLAddr))
  | [], _, _ => none
  | p :: t, k, v =>
    if p.1 = k then some ((k, v) :: t)
    else (insertEntries t k v).map (fun es => p :: es)

/-- `cache.insert(k, v)`: overwrites an existing key, appends while
room is left, and fails (cache unchanged, `Bool` result `false`) when
the cache is full and the key is new — no eviction. -/
def cacheInsert (c : Cache) (k : NLAddr) (v : LLAddr) : Cache × Bool :=
  match insertEntries c.entries k v with
  | some es => ({ c with entries := es }, true)
  | none =>
    if c.entries.length < c.cap then ({ c with entries := c.entries ++ [(k, v)] }, true)
    else (c, false)

/-- Which of the two dispatch-loop buffers a reply frame is built in:
the request's own reclaimed buffer (`mac.free().unslice()`) or the
scratch `extra_buf`. -/
inductive BufId where
  | request : BufId
  | extra : BufId
deriving DecidableEq

/-- The solicited Neighbor Advertisement frame `on_new_frame` builds:
an intra-PAN Data frame (`ieee802154::Frame::data`) plus the fields the
`neighbor_advertisement` closure sets. -/
structure NAFrame where
  buf : BufId
  pan_id : Nat
  src_ll : LLAddr
  dest_ll : LLAddr
  ip_src : NLAddr
  ip_dest : NLAddr
  tll : Option Nat
  target : NLAddr
  override_flag : Bool
  solicited : Bool
  router : Bool
deriving DecidableEq

/-- The Echo Reply frame `on_new_frame` builds in `extra_buf`. -/
structure ERFrame where
  buf : BufId
  pan_id : Nat
  src_ll : LLAddr
  dest_ll : LLAddr
  ip_src : NLAddr
  ip_dest : NLAddr
  identifier : Nat
  sequence_number : Nat
  payload : List Nat
deriving DecidableEq

/-- `Action`: the tagged result of processing one inbound frame. -/
inductive Action where
  | Nop : Action
  | EchoReply : ERFrame → Action
  | SolicitedNeighborAdvertisement : NAFrame → Action
deriving DecidableEq

/-- `true` iff an action is an `EchoReply`. -/
def isEchoReply : Action → Bool
  | Action.EchoReply _ => true
  | _ => false

/-- The ICMPv6 message-type dispatch of `on_new_frame`
(`if let Some(nh) = ip.get_next_header() { ... }`, lines 199-366 of
`sixlowpan.rs`), transcribed check for check.  The two sequential
rejects of the unspecified-source block are flattened into guarded
conditions with the same control flow. -/
def icmpDispatch (f : Frame) (cache : Cache) (src_ll_addr dest_ll_addr : LLAddr)
    (src_nl_addr dest_nl_addr : NLAddr) : Action :=
  match f.nextHeader with
  | none => Action.Nop
  | some NextHeader.Other => Action.Nop
  | some NextHeader.Ipv6Icmp =>
    if f.icmpValid = false then Action.Nop
    else
      match f.icmpType with
      | IcmpType.NeighborSolicitation =>
        if f.hopLimit ≠ 255 then Action.Nop
        else if f.nsDowncastOk = false then Action.Nop
        else if f.checksumOk = false then Action.Nop
        else if is_unspecified src_nl_addr = true ∧ is_solicited_node dest_nl_addr = false then
          Action.Nop
        else if is_unspecified src_nl_addr = true ∧ f.sourceLLOpt.isSome = true then
          Action.Nop
        else if f.nsTarget = our_nl_addr then
          if is_unspecified src_nl_addr = true then Action.Nop
          else
            Action.SolicitedNeighborAdvertisement
              { buf := BufId.request, pan_id := PAN_ID,
                src_ll := LLAddr.Extended EXTENDED_ADDRESS, dest_ll := src_ll_addr,
                ip_src := our_nl_addr, ip_dest := src_nl_addr,
                tll := some EXTENDED_ADDRESS, target := f.nsTarget,
                override_flag := true, solicited := true, router := false }
        else Action.Nop
      | IcmpType.EchoRequest =>
        if f.erDowncastOk = false then Action.Nop
        else
          match cacheGet cache src_nl_addr with
          | none => Action.Nop
          | some dest_addr =>
            Action.EchoReply
              { buf := BufId.extra, pan_id := PAN_ID,
                src_ll := LLAddr.Extended EXTENDED_ADDRESS, dest_ll := dest_addr,
                ip_src := dest_nl_addr, ip_dest := src_nl_addr,
                identifier := f.erIdentifier, sequence_number := f.erSequence,
                payload := f.erPayload }
      | _ => Action.Nop

/-- `on_new_frame` (lines 121-369 of `sixlowpan.rs`): MAC checks, IPHC
decode, address reconstruction, the pre-dispatch link-local
neighbor-cache update (an insert failure on a full cache is logged and
non-fatal), then ICMPv6 dispatch.  Returns the produced `Action`
together with the updated cache (the Rust function mutates the cache
through `&mut`; the post-insert cache value is written out twice here
instead of let-bound). -/
def on_new_frame (f : Frame) (cache : Cache) : Action × Cache :=
  if f.macValid = false then (Action.Nop, cache)
  else if f.frameType ≠ FrameType.Data then (Action.Nop, cache)
  else if f.securityEnabled = true then (Action.Nop, cache)
  else if f.intraPan = false then (Action.Nop, cache)
  else
    match f.srcAddr with
    | none => (Action.Nop, cache)
    | some src_ll_addr =>
      match f.destAddr with
      | none => (Action.Nop, cache)
      | some dest_ll_addr =>
        if f.iphcValid = false then (Action.Nop, cache)
        else
          (icmpDispatch f
            (if is_link_local (reconstruct f.source src_ll_addr) = true then
              (cacheInsert cache (reconstruct f.source src_ll_addr) src_ll_addr).1
             else cache)
            src_ll_addr dest_ll_addr
            (reconstruct f.source src_ll_addr) (reconstruct f.destination dest_ll_addr),
           if is_link_local (reconstruct f.source src_ll_addr) = true then
             (cacheInsert cache (reconstruct f.source src_ll_addr) src_ll_addr).1
           else cache)

/-- The reconstructed source network address of a frame: the value
`src_nl_addr` takes inside `on_new_frame` whenever the MAC source
address is present. -/
def srcNl (f : Frame) : NLAddr :=
  reconstruct f.source (f.srcAddr.getD (LLAddr.Short 0))

/-- The reconstructed destination network address of a frame. -/
def destNl (f : Frame) : NLAddr :=
  reconstruct f.destination (f.destAddr.getD (LLAddr.Short 0))

/-- A link-local peer address used by concrete witnesses. -/
def linkLocalPeer : NLAddr := [254, 128, 0, 0, 0, 0, 0, 0, 0, 0, 0, 0, 0, 0, 0, 1]

/-- A global (non-link-local) peer address used by concrete witnesses. -/
def globalPeer : NLAddr := [32, 1, 13, 184, 0, 0, 0, 0, 0, 0, 0, 0, 0, 0, 0, 7]

/-- A fully valid inbound Echo Request from `linkLocalPeer`, used by
concrete witnesses and counterexamples. -/
def sampleFrame : Frame where
  macValid := true
  frameType := FrameType.Data
  securityEnabled := false
  intraPan := true
  srcAddr := some (LLAddr.Extended 7)
  destAddr := some (LLAddr.Short 3)
  iphcValid := true
  source := IphcAddr.Complete linkLocalPeer
  destination := IphcAddr.Complete our_nl_addr
  hopLimit := 255
  nextHeader := some NextHeader.Ipv6Icmp
  icmpValid := true
  icmpType := IcmpType.EchoRequest
  nsDowncastOk := true
  checksumOk := true
  sourceLLOpt := none
  nsTarget := our_nl_addr
  erDowncastOk := true
  erIdentifier := 5
  erSequence := 9
  erPayload := [1, 2, 3]

/-- An empty neighbor cache of capacity 8 (the `CACHE_SIZE` of the
firmware is not in the shown source; the capacity is a parameter of the
model). -/
def emptyCache : Cache := { entries := [], cap := 8 }

/-- A full neighbor cache of capacity 1 holding an unrelated entry. -/
def fullCache : Cache := { entries := [(globalPeer, LLAddr.Short 2)], cap := 1 }

end Jnet

namespace Jnet

/-! ## Helper lemmas about `List.getD`, `List.set`, `readU16`, `writeU16` -/

theorem getD_set_self (l : List Nat) (i v : Nat) (h : i < l.length) :
    (l.set i v).getD i 0 = v := by
  induction l generalizing i with
  | nil => simp at h
  | cons a t ih =>
    cases i with
    | zero => rfl
    | succ j => simpa using ih j (by simpa using h)

theorem getD_set_ne (l : List Nat) (i j v : Nat) (h : i ≠ j) :
    (l.set i v).getD j 0 = l.getD j 0 := by
  induction l generalizing i j with
  | nil => simp
  | cons a t ih =>
    cases i with
    | zero =>
      cases j with
      | zero => exact absurd rfl h
      | succ k => simp
    | succ m =>
      cases j with
      | zero => simp
      | succ k => simpa using ih m k (by omega)

theorem getD_take (l : List Nat) (n i : Nat) (h : i < n) :
    (l.take n).getD i 0 = l.getD i 0 := by
  induction l generalizing n i with
  | nil => simp
  | cons a t ih =>
    cases n with
    | zero => omega
    | succ m =>
      cases i with
      | zero => rfl
      | succ k => simpa using ih m k (by omega)

theorem getD_append_left (l1 l2 : List Nat) (i : Nat) (h : i < l1.length) :
    (l1 ++ l2).getD i 0 = l1.getD i 0 := by
  induction l1 generalizing i with
  | nil => simp at h
  | cons a t ih =>
    cases i with
    | zero => rfl
    | succ k => simpa using ih k (by simpa using h)

theorem length_writeU16 (b : List Nat) (i v : Nat) :
    (writeU16 b i v).length = b.length := by
  simp [writeU16]

theorem readU16_writeU16_self (b : List Nat) (i v : Nat)
    (h1 : i + 1 < b.length) (h2 : v ≤ 65535) :
    readU16 (writeU16 b i v) i = v := by
  unfold readU16 writeU16
  rw [getD_set_self _ _ _ (by simp; omega),
    getD_set_ne _ _ _ _ (by omega),
    getD_set_self _ _ _ (by omega)]
  omega

theorem readU16_writeU16_ne (b : List Nat) (i j v : Nat)
    (h : i ≠ j ∧ i ≠ j + 1 ∧ i + 1 ≠ j ∧ i + 1 ≠ j + 1) :
    readU16 (writeU16 b i v) j = readU16 b j := by
  unfold readU16 writeU16
  rw [getD_set_ne _ _ _ _ h.2.2.1, getD_set_ne _ _ _ _ h.1,
    getD_set_ne _ _ _ _ h.2.2.2, getD_set_ne _ _ _ _ h.2.1]

theorem readU16_take8_append (X data : List Nat) (i : Nat)
    (hi : i + 1 < 8) (hX : 8 ≤ X.length) :
    readU16 (X.take 8 ++ data) i = readU16 X i := by
  unfold readU16
  rw [getD_append_left _ _ _ (by rw [List.length_take]; omega),
    getD_append_left _ _ _ (by rw [List.length_take]; omega),
    getD_take _ _ _ (by omega), getD_take _ _ _ (by omega)]

/-! ## C5: `parse` failure conditions -/

/-- C5: `udp::Packet::parse` fails exactly when the buffer is shorter
than 8 bytes, or the declared Length field is less than 8, or the
declared Length field is greater than the buffer's length; on every
failure it returns the original buffer with its bytes unmodified. -/
theorem parse_spec (bytes : List Nat) :
    parse bytes =
      if bytes.length < 8 ∨ get_length bytes < 8 ∨ bytes.length < get_length bytes
      then Except.error bytes else Except.ok bytes := by
  unfold parse
  split_ifs <;> tauto

/-! ## C3: `new` initialization -/

/-- C3 counterexample: the claim "on success the packet spans the whole
given buffer and its Length field equals the buffer's length" fails for
a buffer of 65536 bytes: `new` truncates to `u16::MAX = 65535`
(`u16(buffer.len()).unwrap_or(u16::MAX)` + `buffer.truncate(len)`), so
the Length field is 65535, not the buffer's length. -/
theorem new_whole_buffer_cex :
    (new (List.replicate 65536 1)).isSome = true ∧
    get_length ((new (List.replicate 65536 1)).getD []) ≠
      (List.replicate 65536 1).length := by
  have hb : (List.replicate 65536 (1 : Nat)).length = 65536 := by
    rw [List.length_replicate]
  have hmin : min (65536 : Nat) 65535 = 65535 := by omega
  have hnew : new (List.replicate 65536 1) =
      some (writeU16 (writeU16 ((List.replicate 65536 1).take 65535) 6 0) 4 65535) := by
    unfold new
    rw [hb]
    norm_num
  rw [hnew]
  refine ⟨rfl, ?_⟩
  have h1 : ((List.replicate 65536 (1 : Nat)).take 65535).length = 65535 := by
    rw [List.length_take, hb]
    omega
  simp only [Option.getD_some]
  unfold get_length
  rw [readU16_writeU16_self _ _ _ (by rw [length_writeU16, h1]; omega) (by omega)]
  rw [hb]
  omega

/-- C3 (amended): `udp::Packet::new` fails iff the buffer is shorter
than the 8-byte header; on success the packet spans the first
`min(buffer.len, 65535)` bytes of the buffer (the whole buffer whenever
it fits in a `u16`), its Checksum field is zero and its Length field
equals `min(buffer.len, 65535)`. -/
theorem new_spec_amended (buffer : List Nat) :
    (new buffer = none ↔ buffer.length < 8) ∧
    (∀ p, new buffer = some p →
      p.length = min buffer.length 65535 ∧
      get_length p = min buffer.length 65535 ∧
      get_checksum p = 0) := by
  by_cases hlen : buffer.length < 8
  · constructor
    · simp [new, hlen]
    · intro p hp
      rw [new, if_pos hlen] at hp
      exact absurd hp (by simp)
  · have h8 : 8 ≤ buffer.length := by omega
    have hmin : 8 ≤ min buffer.length 65535 := by omega
    have htk : (buffer.take (min buffer.length 65535)).length = min buffer.length 65535 := by
      rw [List.length_take]
      omega
    constructor
    · simp [new, hlen]
    · intro p hp
      rw [new, if_neg hlen] at hp
      have hp2 : p = writeU16 (writeU16 (buffer.take (min buffer.length 65535)) 6 0) 4
          (min buffer.length 65535) := by
        exact (Option.some.injEq _ _ ▸ hp).symm
      subst hp2
      refine ⟨by rw [length_writeU16, length_writeU16, htk], ?_, ?_⟩
      · unfold get_length
        rw [readU16_writeU16_self _ _ _ (by rw [length_writeU16, htk]; omega) (by omega)]
      · unfold get_checksum
        rw [readU16_writeU16_ne _ _ _ _ (by omega),
          readU16_writeU16_self _ _ _ (by rw [htk]; omega) (by omega)]

/-- C3 witness: the amended theorem applied to a concrete 16-byte
buffer. -/
theorem new_spec_amended_w :
    (new (List.replicate 16 2) = none ↔ (List.replicate 16 2 : List Nat).length < 8) ∧
    (∀ p, new (List.replicate 16 2) = some p →
      p.length = min (List.replicate 16 2 : List Nat).length 65535 ∧
      get_length p = min (List.replicate 16 2 : List Nat).length 65535 ∧
      get_checksum p = 0) :=
  new_spec_amended (List.replicate 16 2)

/-! ## C9: `truncate` never increases the visible length -/

/-- C9: for every UDP packet (a buffer satisfying the packet invariant)
and every length `n`, `truncate n` never increases the packet's visible
length `len()` (the Length field). -/
theorem truncate_monotone (b : List Nat) (n : Nat) (hinv : PacketInv b) :
    get_length (truncate b n) ≤ get_length b := by
  obtain ⟨h1, h2, h3⟩ := hinv
  unfold truncate
  split
  · next h =>
    unfold payload_len at h
    have hlen : (b.take (n + 8)).length = n + 8 := by
      rw [List.length_take]
      omega
    unfold get_length at *
    rw [readU16_writeU16_self _ _ _ (by rw [hlen]; omega) (by omega)]
    omega
  · exact Nat.le_refl _

/-- C9 witness: a concrete parsed packet with Length field 16 truncated
to payload length 3. -/
theorem truncate_monotone_w :
    PacketInv [0, 0, 0, 0, 0, 16, 0, 0, 1, 2, 3, 4, 5, 6, 7, 8] ∧
    get_length (truncate [0, 0, 0, 0, 0, 16, 0, 0, 1, 2, 3, 4, 5, 6, 7, 8] 3) ≤
      get_length [0, 0, 0, 0, 0, 16, 0, 0, 1, 2, 3, 4, 5, 6, 7, 8] :=
  ⟨by decide, truncate_monotone _ 3 (by decide)⟩

/-! ## C4: `set_payload` failure and success behaviour -/

/-- C4 counterexample: the claim "set_payload(data) fails (returns None)
whenever data is larger than the maximum payload the packet can hold"
fails for a data slice of 65536 bytes: `u16(data.len()).unwrap()` panics
before the size check, so the call panics instead of returning `None`.
The concrete packet is a valid parsed packet (header only, Length 8). -/
theorem set_payload_none_cex :
    parse [0, 0, 0, 0, 0, 8, 0, 0] = Except.ok [0, 0, 0, 0, 0, 8, 0, 0] ∧
    payload_len [0, 0, 0, 0, 0, 8, 0, 0] < (List.replicate 65536 0).length ∧
    set_payload [0, 0, 0, 0, 0, 8, 0, 0] (List.replicate 65536 0) = SPResult.panicked := by
  have hb : (List.replicate 65536 (0 : Nat)).length = 65536 := by
    rw [List.length_replicate]
  refine ⟨rfl, ?_, ?_⟩
  · rw [hb]
    decide
  · unfold set_payload
    rw [hb]
    norm_num

/-- C4 (amended): for every UDP packet (packet invariant) and every
data slice of at most 65535 bytes (larger slices make the internal
`u16` conversion panic instead of returning `None`), `set_payload`
fails — returning `None` and handing the buffer back unmodified —
whenever the data is larger than the current payload capacity
`payload_len`; and whenever it succeeds, the logical packet length has
shrunk to header size plus data length and the payload bytes equal the
data. -/
theorem set_payload_spec_amended (b data : List Nat) (hinv : PacketInv b)
    (hd : data.length ≤ 65535) :
    (payload_len b < data.length → set_payload b data = SPResult.failed b) ∧
    (∀ b2, set_payload b data = SPResult.ok b2 →
      get_length b2 = 8 + data.length ∧ b2.drop 8 = data) := by
  obtain ⟨h1, h2, h3⟩ := hinv
  constructor
  · intro h
    unfold set_payload
    rw [if_neg (by omega), if_pos h]
  · intro b2 hok
    unfold set_payload at hok
    rw [if_neg (by omega)] at hok
    split at hok
    · exact absurd hok (by simp)
    · next hcap =>
      split at hok
      · next hdst =>
        have hb2 : b2 = (truncate b data.length).take 8 ++ data := by
          exact ((SPResult.ok.injEq _ _).mp hok).symm
        subst hb2
        unfold payload_len at hcap
        by_cases hlt : data.length < payload_len b
        · have hlen8 : data.length + 8 ≤ b.length := by
            unfold payload_len at hlt
            omega
          have hT : truncate b data.length =
              writeU16 (b.take (data.length + 8)) 4 (data.length + 8) := by
            unfold truncate
            rw [if_pos hlt]
          have hTlen : (truncate b data.length).length = data.length + 8 := by
            rw [hT, length_writeU16, List.length_take]
            unfold payload_len at hlt
            omega
          constructor
          · unfold get_length
            rw [readU16_take8_append _ _ _ (by omega) (by omega), hT,
              readU16_writeU16_self _ _ _
                (by rw [List.length_take]; omega)
                (by unfold payload_len at hlt; omega)]
            omega
          · have h8 : ((truncate b data.length).take 8).length = 8 := by
              rw [List.length_take]
              omega
            rw [List.drop_left' h8]
        · have hT : truncate b data.length = b := by
            unfold truncate
            rw [if_neg hlt]
          rw [hT] at hdst ⊢
          have hlen : data.length = payload_len b := by
            unfold payload_len at hlt ⊢
            omega
          constructor
          · unfold get_length
            rw [readU16_take8_append _ _ _ (by omega) (by omega)]
            unfold payload_len at hlen
            unfold get_length at *
            omega
          · have h8 : (b.take 8).length = 8 := by
              rw [List.length_take]
              omega
            rw [List.drop_left' h8]
      · exact absurd hok (by simp)

/-- C4 witness: the amended theorem applied to a concrete parsed packet
(buffer length 10, Length field 10, payload capacity 2) and a 3-byte
data slice, which fails without mutation. -/
theorem set_payload_spec_amended_w :
    set_payload [0, 0, 0, 0, 0, 10, 0, 0, 5, 5] [9, 9, 9] =
      SPResult.failed [0, 0, 0, 0, 0, 10, 0, 0, 5, 5] :=
  (set_payload_spec_amended [0, 0, 0, 0, 0, 10, 0, 0, 5, 5] [9, 9, 9]
    (by decide) (by decide)).1 (by decide)

/-! ## C10: `set_payload` panic-freedom -/

/-- C10 counterexample: the claim "set_payload never panics whenever
data.len ≤ current payload length" fails on a parsed packet whose
buffer is longer than its Length field: with Length 9 over a 10-byte
buffer, `payload_len` is 1, yet `set_payload` of a 1-byte slice reaches
`copy_from_slice` with a 2-byte destination (`buffer[8..]`) and
panics on the length mismatch.  (The internal `u16` conversion —
the `unwrap` — does succeed here, as the claim's justification says.) -/
theorem set_payload_panic_cex :
    parse [0, 0, 0, 0, 0, 9, 0, 0, 0, 0] = Except.ok [0, 0, 0, 0, 0, 9, 0, 0, 0, 0] ∧
    ([0] : List Nat).length ≤ payload_len [0, 0, 0, 0, 0, 9, 0, 0, 0, 0] ∧
    set_payload [0, 0, 0, 0, 0, 9, 0, 0, 0, 0] [0] = SPResult.panicked :=
  ⟨rfl, by decide, by decide⟩

/-- C10 (amended): for every UDP packet and every data slice no longer
than the current payload length, the internal conversion of the data
length to a 16-bit value (the `unwrap` inside `set_payload`) succeeds,
because the payload length is bounded by the 16-bit Length field; and
`set_payload` as a whole never panics under the additional assumption
that the packet's Length field equals its buffer length (which `new`
establishes — parsed packets with trailing slack can still panic in
`copy_from_slice`, as the counterexample shows). -/
theorem set_payload_no_panic_amended (b data : List Nat)
    (h1 : 8 ≤ get_length b) (h2 : get_length b ≤ 65535)
    (hd : data.length ≤ payload_len b) :
    data.length ≤ 65535 ∧
    (get_length b = b.length → set_payload b data ≠ SPResult.panicked) := by
  have hdl : data.length ≤ 65527 := by
    unfold payload_len at hd
    omega
  refine ⟨by omega, ?_⟩
  intro hb heq
  unfold set_payload at heq
  rw [if_neg (by omega), if_neg (by omega)] at heq
  split at heq
  · exact absurd heq (by simp)
  · next hne =>
    apply hne
    unfold truncate
    split
    · next hlt =>
      rw [length_writeU16, List.length_take]
      unfold payload_len get_length at hlt hd
      unfold get_length at hb
      omega
    · next hge =>
      unfold payload_len at hd hge
      omega

/-- C10 witness: the amended theorem applied to a concrete packet built
over its whole buffer (Length field 10 = buffer length) and a 1-byte
data slice. -/
theorem set_payload_no_panic_amended_w :
    ([7] : List Nat).length ≤ 65535 ∧
    (get_length [0, 0, 0, 0, 0, 10, 0, 0, 1, 1] =
        ([0, 0, 0, 0, 0, 10, 0, 0, 1, 1] : List Nat).length →
      set_payload [0, 0, 0, 0, 0, 10, 0, 0, 1, 1] [7] ≠ SPResult.panicked) :=
  set_payload_no_panic_amended [0, 0, 0, 0, 0, 10, 0, 0, 1, 1] [7]
    (by decide) (by decide) (by decide)

/-! ## C2: checksum round-trip -/

theorem exists_eight (b : List Nat) (h : 8 ≤ b.length) :
    ∃ a0 a1 a2 a3 a4 a5 a6 a7 t,
      b = a0 :: a1 :: a2 :: a3 :: a4 :: a5 :: a6 :: a7 :: t := by
  match b, h with
  | a0 :: a1 :: a2 :: a3 :: a4 :: a5 :: a6 :: a7 :: t, _ =>
    exact ⟨a0, a1, a2, a3, a4, a5, a6, a7, t, rfl⟩
  | [], h => simp at h
  | [x0], h => simp at h
  | [x0, x1], h => simp at h
  | [x0, x1, x2], h => simp at h
  | [x0, x1, x2, x3], h => simp at h
  | [x0, x1, x2, x3, x4], h => simp at h
  | [x0, x1, x2, x3, x4, x5], h => simp at h
  | [x0, x1, x2, x3, x4, x5, x6], h => simp at h

set_option maxRecDepth 4096 in
/-- C2: for every UDP packet view over a backing buffer of at least 8
bytes and every pair of 16-byte (128-bit) IPv6 source and destination
addresses, `update_ipv6_checksum src dest` followed by
`verify_ipv6_checksum src dest` on the same packet returns `true`:
the checksum computation skips 16-bit chunk 3 — exactly the Checksum
field the update writes. -/
theorem update_then_verify (b src dest : List Nat) (hb : 8 ≤ b.length)
    (hs : src.length = 16) (hd : dest.length = 16) :
    verify_ipv6_checksum (update_ipv6_checksum b src dest) src dest = true := by
  obtain ⟨a0, a1, a2, a3, a4, a5, a6, a7, t, rfl⟩ := exists_eight b hb
  have hcs : chunkSum 0
      (update_ipv6_checksum (a0 :: a1 :: a2 :: a3 :: a4 :: a5 :: a6 :: a7 :: t) src dest)
      = chunkSum 0 (a0 :: a1 :: a2 :: a3 :: a4 :: a5 :: a6 :: a7 :: t) := rfl
  have hlen : (update_ipv6_checksum
      (a0 :: a1 :: a2 :: a3 :: a4 :: a5 :: a6 :: a7 :: t) src dest).length
      = (a0 :: a1 :: a2 :: a3 :: a4 :: a5 :: a6 :: a7 :: t).length := by
    rw [update_ipv6_checksum, length_writeU16]
  have h1 : compute_checksum
      (update_ipv6_checksum (a0 :: a1 :: a2 :: a3 :: a4 :: a5 :: a6 :: a7 :: t) src dest)
      src dest
      = compute_checksum (a0 :: a1 :: a2 :: a3 :: a4 :: a5 :: a6 :: a7 :: t) src dest := by
    simp only [compute_checksum]
    rw [hcs, hlen]
  have h3 : compute_checksum (a0 :: a1 :: a2 :: a3 :: a4 :: a5 :: a6 :: a7 :: t) src dest
      ≤ 65535 := Nat.sub_le _ _
  have hc : get_checksum
      (update_ipv6_checksum (a0 :: a1 :: a2 :: a3 :: a4 :: a5 :: a6 :: a7 :: t) src dest)
      = compute_checksum (a0 :: a1 :: a2 :: a3 :: a4 :: a5 :: a6 :: a7 :: t) src dest := by
    unfold update_ipv6_checksum get_checksum
    exact readU16_writeU16_self _ _ _ (by simp) h3
  unfold verify_ipv6_checksum
  rw [h1, hc]
  simp

/-! ## Shared lemmas about `icmpDispatch` and `on_new_frame` -/

theorem dispatch_nop_of_ns_bad_hop (f : Frame) (cc : Cache) (s d : LLAddr)
    (sn dn : NLAddr) (ht : f.icmpType = IcmpType.NeighborSolicitation)
    (hh : f.hopLimit ≠ 255) :
    icmpDispatch f cc s d sn dn = Action.Nop := by
  unfold icmpDispatch
  repeat' split <;> try rfl
  all_goals simp_all

theorem dispatch_nop_of_er_unknown (f : Frame) (cc : Cache) (s d : LLAddr)
    (sn dn : NLAddr) (ht : f.icmpType = IcmpType.EchoRequest)
    (hg : cacheGet cc sn = none) :
    icmpDispatch f cc s d sn dn = Action.Nop := by
  unfold icmpDispatch
  repeat' split <;> try rfl
  all_goals simp_all

theorem dispatch_ns_self (f : Frame) (cc : Cache) (s d : LLAddr) (sn dn : NLAddr)
    (h8 : f.nextHeader = some NextHeader.Ipv6Icmp) (h9 : f.icmpValid = true)
    (h10 : f.icmpType = IcmpType.NeighborSolicitation) (h11 : f.hopLimit = 255)
    (h12 : f.nsDowncastOk = true) (h13 : f.checksumOk = true)
    (h14 : is_unspecified sn = false) (h15 : f.nsTarget = our_nl_addr) :
    icmpDispatch f cc s d sn dn = Action.SolicitedNeighborAdvertisement
      { buf := BufId.request, pan_id := PAN_ID,
        src_ll := LLAddr.Extended EXTENDED_ADDRESS, dest_ll := s,
        ip_src := our_nl_addr, ip_dest := sn, tll := some EXTENDED_ADDRESS,
        target := f.nsTarget, override_flag := true, solicited := true,
        router := false } := by
  unfold icmpDispatch
  rw [h8, h9, h10, h11]
  simp [h12, h13, h14, h15]

theorem on_new_frame_eq (f : Frame) (c : Cache) (s d : LLAddr)
    (h1 : f.macValid = true) (h2 : f.frameType = FrameType.Data)
    (h3 : f.securityEnabled = false) (h4 : f.intraPan = true)
    (h5 : f.srcAddr = some s) (h6 : f.destAddr = some d) (h7 : f.iphcValid = true) :
    on_new_frame f c =
      (icmpDispatch f
        (if is_link_local (srcNl f) = true then (cacheInsert c (srcNl f) s).1 else c)
        s d (srcNl f) (destNl f),
       if is_link_local (srcNl f) = true then (cacheInsert c (srcNl f) s).1 else c) := by
  unfold on_new_frame srcNl destNl
  rw [h1, h2, h3, h4, h5, h6, h7]
  simp

/-! ## C6: Neighbor Solicitation hop-limit enforcement -/

/-- C6: every inbound frame carrying an ICMPv6 message of type
Neighbor Solicitation whose IPv6 hop limit is not 255 is processed to
`Action::Nop`, regardless of all other fields. -/
theorem ns_bad_hop_limit_nop (f : Frame) (c : Cache)
    (ht : f.icmpType = IcmpType.NeighborSolicitation) (hh : f.hopLimit ≠ 255) :
    (on_new_frame f c).1 = Action.Nop := by
  unfold on_new_frame
  split
  · rfl
  · split
    · rfl
    · split
      · rfl
      · split
        · rfl
        · split
          · rfl
          · next a hs =>
            split
            · rfl
            · next b hd =>
              split
              · rfl
              · exact dispatch_nop_of_ns_bad_hop f
                  (if is_link_local (reconstruct f.source a) = true then
                    (cacheInsert c (reconstruct f.source a) a).1
                   else c)
                  a b (reconstruct f.source a) (reconstruct f.destination b) ht hh

/-- C6 witness: a concrete, otherwise fully valid Neighbor
Solicitation with hop limit 254 yields `Nop`. -/
theorem ns_bad_hop_limit_nop_w :
    (on_new_frame
      { sampleFrame with icmpType := IcmpType.NeighborSolicitation, hopLimit := 254 }
      emptyCache).1 = Action.Nop :=
  ns_bad_hop_limit_nop _ emptyCache rfl (by decide)

/-! ## Shared lemmas about the neighbor cache -/

theorem find_insertEntries (es : List (NLAddr × LLAddr)) (k : NLAddr) (v : LLAddr)
    (es2 : List (NLAddr × LLAddr)) (h : insertEntries es k v = some es2) :
    es2.find? (fun p => p.1 == k) = some (k, v) := by
  induction es generalizing es2 with
  | nil => simp [insertEntries] at h
  | cons p t ih =>
    unfold insertEntries at h
    split at h
    · next hpk =>
      cases h
      exact List.find?_cons_of_pos _ (by simp)
    · next hpk =>
      cases hm : insertEntries t k v with
      | none =>
        rw [hm] at h
        simp at h
      | some es3 =>
        rw [hm] at h
        simp at h
        subst h
        rw [List.find?_cons_of_neg _ (by simp [hpk])]
        exact ih es3 hm

theorem find_insertEntries_none (es : List (NLAddr × LLAddr)) (k : NLAddr) (v : LLAddr)
    (h : insertEntries es k v = none) :
    es.find? (fun p => p.1 == k) = none := by
  induction es with
  | nil => simp
  | cons p t ih =>
    unfold insertEntries at h
    split at h
    · simp at h
    · next hpk =>
      cases hm : insertEntries t k v with
      | none =>
        rw [List.find?_cons_of_neg _ (by simp [hpk])]
        exact ih hm
      | some es3 =>
        rw [hm] at h
        simp at h

theorem cacheGet_insert_self (c : Cache) (k : NLAddr) (v : LLAddr)
    (h : (cacheInsert c k v).2 = true) :
    cacheGet (cacheInsert c k v).1 k = some v := by
  unfold cacheInsert at h ⊢
  cases hm : insertEntries c.entries k v with
  | some es =>
    show cacheGet { c with entries := es } k = some v
    unfold cacheGet
    show (es.find? (fun p => p.1 == k)).map (fun p => p.2) = some v
    rw [find_insertEntries c.entries k v es hm]
    rfl
  | none =>
    rw [hm] at h
    by_cases hlen : c.entries.length < c.cap
    · show cacheGet
        ((if c.entries.length < c.cap then ({ c with entries := c.entries ++ [(k, v)] }, true)
          else (c, false)).1) k = some v
      rw [if_pos hlen]
      show cacheGet { c with entries := c.entries ++ [(k, v)] } k = some v
      unfold cacheGet
      show ((c.entries ++ [(k, v)]).find? (fun p => p.1 == k)).map (fun p => p.2) = some v
      rw [List.find?_append, find_insertEntries_none c.entries k v hm]
      simp
    · exfalso
      revert h
      show ((if c.entries.length < c.cap then ({ c with entries := c.entries ++ [(k, v)] }, true)
        else (c, false)).2 = true) → False
      rw [if_neg hlen]
      simp

/-! ## C1: Echo Request from an address not in the neighbor cache -/

/-- C1 counterexample: an Echo Request whose (link-local) source
network address is *not* in the neighbor cache when the frame is
received nevertheless produces an `EchoReply`: the pre-dispatch
link-local cache update of `on_new_frame` inserts the source address
before the Echo arm's lookup, so the lookup succeeds. -/
theorem echo_request_unknown_source_cex :
    cacheGet emptyCache (srcNl sampleFrame) = none ∧
    isEchoReply (on_new_frame sampleFrame emptyCache).1 = true := by
  decide

/-- C1 (amended): an Echo Request whose reconstructed source network
address is not link-local (hence is not inserted by the pre-dispatch
cache update) and is not in the neighbor cache when the frame is
received yields `Action::Nop` and never `Action::EchoReply`. -/
theorem echo_request_unknown_source_nop (f : Frame) (c : Cache)
    (ht : f.icmpType = IcmpType.EchoRequest)
    (hll : is_link_local (srcNl f) = false)
    (hg : cacheGet c (srcNl f) = none) :
    (on_new_frame f c).1 = Action.Nop := by
  unfold on_new_frame
  split
  · rfl
  · split
    · rfl
    · split
      · rfl
      · split
        · rfl
        · split
          · rfl
          · next a hs =>
            split
            · rfl
            · next b hd =>
              split
              · rfl
              · have hsn : reconstruct f.source a = srcNl f := by
                  unfold srcNl
                  rw [hs]
                  rfl
                rw [hsn, if_neg (by rw [hll]; simp)]
                exact dispatch_nop_of_er_unknown f c a b (srcNl f)
                  (reconstruct f.destination b) ht hg

/-- C1 witness: the amended theorem applied to a concrete Echo Request
from a non-link-local (global) source address and the empty cache. -/
theorem echo_request_unknown_source_nop_w :
    (on_new_frame { sampleFrame with source := IphcAddr.Complete globalPeer }
      emptyCache).1 = Action.Nop :=
  echo_request_unknown_source_nop _ emptyCache rfl (by decide) (by decide)

/-! ## C7: self-targeted Neighbor Solicitation -/

/-- C7: a valid Neighbor Solicitation (hop limit 255, downcast ok,
checksum ok, source not unspecified — so the unspecified-source checks
pass) whose target equals this node's own network address yields a
`SolicitedNeighborAdvertisement` built in the request's own reclaimed
buffer, with target equal to the request's target address, solicited
and override flags true, and router flag false. -/
theorem self_targeted_solicitation_advertisement (f : Frame) (c : Cache) (s d : LLAddr)
    (h1 : f.macValid = true) (h2 : f.frameType = FrameType.Data)
    (h3 : f.securityEnabled = false) (h4 : f.intraPan = true)
    (h5 : f.srcAddr = some s) (h6 : f.destAddr = some d) (h7 : f.iphcValid = true)
    (h8 : f.nextHeader = some NextHeader.Ipv6Icmp) (h9 : f.icmpValid = true)
    (h10 : f.icmpType = IcmpType.NeighborSolicitation) (h11 : f.hopLimit = 255)
    (h12 : f.nsDowncastOk = true) (h13 : f.checksumOk = true)
    (h14 : is_unspecified (srcNl f) = false) (h15 : f.nsTarget = our_nl_addr) :
    (on_new_frame f c).1 = Action.SolicitedNeighborAdvertisement
      { buf := BufId.request, pan_id := PAN_ID,
        src_ll := LLAddr.Extended EXTENDED_ADDRESS, dest_ll := s,
        ip_src := our_nl_addr, ip_dest := srcNl f, tll := some EXTENDED_ADDRESS,
        target := f.nsTarget, override_flag := true, solicited := true,
        router := false } := by
  rw [on_new_frame_eq f c s d h1 h2 h3 h4 h5 h6 h7]
  exact dispatch_ns_self f
    (if is_link_local (srcNl f) = true then (cacheInsert c (srcNl f) s).1 else c)
    s d (srcNl f) (destNl f) h8 h9 h10 h11 h12 h13 h14 h15

/-- C7 witness: a concrete self-targeted solicitation from
`linkLocalPeer` yields the advertisement with the flags and target the
claim states, built in the request buffer. -/
theorem self_targeted_solicitation_advertisement_w :
    (on_new_frame { sampleFrame with icmpType := IcmpType.NeighborSolicitation }
      emptyCache).1 = Action.SolicitedNeighborAdvertisement
      { buf := BufId.request, pan_id := PAN_ID,
        src_ll := LLAddr.Extended EXTENDED_ADDRESS, dest_ll := LLAddr.Extended 7,
        ip_src := our_nl_addr, ip_dest := linkLocalPeer, tll := some EXTENDED_ADDRESS,
        target := our_nl_addr, override_flag := true, solicited := true,
        router := false } :=
  self_targeted_solicitation_advertisement _ emptyCache (LLAddr.Extended 7)
    (LLAddr.Short 3) rfl rfl rfl rfl rfl rfl rfl rfl rfl rfl rfl rfl rfl
    (by decide) rfl

/-! ## C8: pre-dispatch neighbor-cache update for link-local sources -/

/-- C8: for every inbound frame that passes the MAC checks and IPHC
decoding, if the reconstructed source network address is link-local
then the neighbor cache is updated (inserted or overwritten) with that
address mapped to the frame's source link-layer address before the
ICMPv6 message-type dispatch, which then runs on the updated cache —
also when the insert failed because the cache was full (non-fatal);
and whenever the insert reports success the resulting cache maps the
source network address to the source link-layer address. -/
theorem link_local_source_cache_update (f : Frame) (c : Cache) (s d : LLAddr)
    (h1 : f.macValid = true) (h2 : f.frameType = FrameType.Data)
    (h3 : f.securityEnabled = false) (h4 : f.intraPan = true)
    (h5 : f.srcAddr = some s) (h6 : f.destAddr = some d) (h7 : f.iphcValid = true)
    (hll : is_link_local (srcNl f) = true) :
    on_new_frame f c =
      (icmpDispatch f (cacheInsert c (srcNl f) s).1 s d (srcNl f) (destNl f),
       (cacheInsert c (srcNl f) s).1) ∧
    ((cacheInsert c (srcNl f) s).2 = true →
      cacheGet (on_new_frame f c).2 (srcNl f) = some s) := by
  have hB := on_new_frame_eq f c s d h1 h2 h3 h4 h5 h6 h7
  rw [if_pos hll] at hB
  refine ⟨hB, ?_⟩
  intro hsucc
  rw [hB]
  exact cacheGet_insert_self c (srcNl f) s hsucc

/-- C8 witness: the theorem applied to the concrete link-local frame
and a *full* cache of capacity 1 — the insert fails, yet dispatch still
runs on the (unchanged) cache. -/
theorem link_local_source_cache_update_w :
    on_new_frame sampleFrame fullCache =
      (icmpDispatch sampleFrame
        (cacheInsert fullCache (srcNl sampleFrame) (LLAddr.Extended 7)).1
        (LLAddr.Extended 7) (LLAddr.Short 3) (srcNl sampleFrame) (destNl sampleFrame),
       (cacheInsert fullCache (srcNl sampleFrame) (LLAddr.Extended 7)).1) ∧
    ((cacheInsert fullCache (srcNl sampleFrame) (LLAddr.Extended 7)).2 = true →
      cacheGet (on_new_frame sampleFrame fullCache).2 (srcNl sampleFrame) =
        some (LLAddr.Extended 7)) :=
  link_local_source_cache_update sampleFrame fullCache (LLAddr.Extended 7)
    (LLAddr.Short 3) rfl rfl rfl rfl rfl rfl rfl (by decide)

/-- C2 witness: the round-trip theorem applied to a concrete 12-byte
packet and two concrete 16-byte addresses. -/
theorem update_then_verify_w :
    verify_ipv6_checksum
      (update_ipv6_checksum [0, 0, 5, 57, 0, 12, 0, 0, 72, 105, 33, 10]
        [254, 128, 0, 0, 0, 0, 0, 0, 0, 0, 0, 0, 0, 0, 0, 1]
        [254, 128, 0, 0, 0, 0, 0, 0, 0, 0, 0, 0, 0, 0, 0, 2])
      [254, 128, 0, 0, 0, 0, 0, 0, 0, 0, 0, 0, 0, 0, 0, 1]
      [254, 128, 0, 0, 0, 0, 0, 0, 0, 0, 0, 0, 0, 0, 0, 2] = true :=
  update_then_verify _ _ _ (by decide) (by decide) (by decide)
